import Mathlib

/-!
Verification of the task execution and state-machine subsystem of the
`agent` repository: the persistent task/plan store (`agent/db.py`), the
executor dispatch loop (`agent/subagents/executor.py`), the plan parser
(`agent/subagents/planner.py`) and the code skill (`agent/skills/coder.py`).

The store is modelled as an in-memory record of tables; SQLite row ids are
modelled by explicit counters, timestamps by a logical clock (only their
presence matters to the properties below).  Python's truthiness tests on
optional string / integer arguments are modelled explicitly.  External
collaborators (the assistant bridge, the skill handlers as seen by the
executor) are parameters of the corresponding definitions.
-/

deriving instance DecidableEq for Except

namespace Agent

/-- A row of the `projects` table. -/
structure Project where
  id : Nat
  path : String
  name : String
deriving DecidableEq

/-- A row of the `knowledge` table. -/
structure KnowledgeEntry where
  id : Nat
  project_id : Nat
  key : String
  value : String
  category : String
  updated_at : Nat
deriving DecidableEq

/-- A row of the `plans` table. -/
structure Plan where
  id : Nat
  project_id : Nat
  title : String
  description : String
  source_file : Option String
  status : String
  created_at : Nat
deriving DecidableEq

/-- A row of the `tasks` table (schema in `db.py`). -/
structure Task where
  id : Nat
  plan_id : Nat
  title : String
  description : String
  task_type : String
  status : String
  priority : Int
  parent_task_id : Option Nat
  result : Option String
  created_at : Nat
  completed_at : Option Nat
deriving DecidableEq

/-- A row of the `executions` table. -/
structure Execution where
  id : Nat
  task_id : Nat
  agent_type : String
  input : String
  output : String
  success : Bool
  executed_at : Nat
deriving DecidableEq

/-- The whole SQLite database of one project directory, plus id counters
(SQLite `INTEGER PRIMARY KEY` auto-assignment) and a logical clock standing
for `datetime.now()` / `CURRENT_TIMESTAMP`. -/
structure DBState where
  projects : List Project
  knowledge : List KnowledgeEntry
  plans : List Plan
  tasks : List Task
  executions : List Execution
  nextPlanId : Nat
  nextTaskId : Nat
  nextExecId : Nat
  clock : Nat
deriving DecidableEq

/-- Python truthiness of an optional string argument (`if status:`):
false for `None` and for the empty string. -/
def truthy : Option String → Bool
  | none => false
  | some s => !s.toList.isEmpty

/-- Python truthiness of an optional integer argument (`if plan_id:`). -/
def truthyNat : Option Nat → Bool
  | none => false
  | some n => n != 0

/-- `ORDER BY priority DESC, id ASC` as a relation on task rows. -/
def taskLE (a b : Task) : Prop :=
  b.priority < a.priority ∨ (a.priority = b.priority ∧ a.id ≤ b.id)

instance : DecidableRel taskLE := fun a b =>
  decidable_of_iff (b.priority < a.priority ∨ (a.priority = b.priority ∧ a.id ≤ b.id)) Iff.rfl

/-- The `WHERE` clause of `get_tasks` (`db.py` lines 180-187): each filter
applies only when the corresponding argument is truthy. -/
def matchesFilters (plan_id : Option Nat) (status : Option String) (t : Task) : Bool :=
  (if truthyNat plan_id then t.plan_id == plan_id.getD 0 else true) &&
  (if truthy status then t.status == status.getD "" else true)

/-- `db.get_tasks`: filter then `ORDER BY priority DESC, id ASC`. -/
def get_tasks (s : DBState) (plan_id : Option Nat) (status : Option String) : List Task :=
  List.insertionSort taskLE (s.tasks.filter (matchesFilters plan_id status))

/-- `db.get_next_task`: head of the pending tasks in selection order. -/
def get_next_task (s : DBState) : Option Task :=
  (get_tasks s none (some "pending")).head?

/-- `db.create_task`: inserts a row with status `pending`, null result and
null `completed_at`; returns the new row id. -/
def create_task (s : DBState) (plan_id : Nat) (title description task_type : String)
    (priority : Int) (parent_id : Option Nat) : DBState × Nat :=
  let row : Task :=
    { id := s.nextTaskId, plan_id := plan_id, title := title,
      description := description, task_type := task_type, status := "pending",
      priority := priority, parent_task_id := parent_id, result := none,
      created_at := s.clock, completed_at := none }
  ({ s with tasks := s.tasks ++ [row], nextTaskId := s.nextTaskId + 1,
            clock := s.clock + 1 },
   s.nextTaskId)

/-- `db.create_plan` (project id fixed to 1: one store per project directory). -/
def create_plan (s : DBState) (title description : String) (source_file : Option String) :
    DBState × Nat :=
  let row : Plan :=
    { id := s.nextPlanId, project_id := 1, title := title,
      description := description, source_file := source_file, status := "pending",
      created_at := s.clock }
  ({ s with plans := s.plans ++ [row], nextPlanId := s.nextPlanId + 1,
            clock := s.clock + 1 },
   s.nextPlanId)

/-- `UPDATE tasks SET status=? WHERE id=?` applied to one row. -/
def setStatus (tid : Nat) (st : String) (t : Task) : Task :=
  if t.id = tid then { t with status := st } else t

/-- `UPDATE tasks SET completed_at=? WHERE id=?` applied to one row. -/
def setCompletedAt (tid : Nat) (v : Option Nat) (t : Task) : Task :=
  if t.id = tid then { t with completed_at := v } else t

/-- `UPDATE tasks SET result=? WHERE id=?` applied to one row. -/
def setResult (tid : Nat) (r : String) (t : Task) : Task :=
  if t.id = tid then { t with result := some r } else t

/-- `db.update_task` (lines 192-201): under `if status:` set the status and,
when the new status is `completed`, also set `completed_at` to now; under
`if result:` set the result text.  Note the truthiness guards: a `None` or
empty-string argument leaves the column untouched, and `completed_at` is
never cleared. -/
def update_task (s : DBState) (task_id : Nat) (status : Option String)
    (result : Option String) : DBState :=
  let s1 :=
    if truthy status then
      let sA := { s with tasks := s.tasks.map (setStatus task_id (status.getD "")) }
      if status.getD "" = "completed" then
        { sA with tasks := sA.tasks.map (setCompletedAt task_id (some sA.clock)),
                  clock := sA.clock + 1 }
      else sA
    else s
  if truthy result then
    { s1 with tasks := s1.tasks.map (setResult task_id (result.getD "")) }
  else s1

/-- `db.log_execution`: append-only insert into `executions`. -/
def log_execution (s : DBState) (task_id : Nat) (agent_type input_data output : String)
    (success : Bool) : DBState × Nat :=
  let row : Execution :=
    { id := s.nextExecId, task_id := task_id,
      agent_type := agent_type, input := input_data, output := output,
      success := success, executed_at := s.clock }
  ({ s with executions := s.executions ++ [row], nextExecId := s.nextExecId + 1,
            clock := s.clock + 1 },
   s.nextExecId)

/-- `db.reset_tasks`: `DELETE FROM executions`, then `DELETE FROM tasks`,
then `DELETE FROM plans`; the `projects` and `knowledge` tables are not
touched. -/
def reset_tasks (s : DBState) : DBState :=
  { s with executions := [], tasks := [], plans := [] }

/-! ## Executor (`agent/subagents/executor.py`)

Skill handlers call external collaborators, so a handler is a parameter:
for a known task type it either returns a result dict or raises an
exception with some message text. -/

/-- The result dicts passed between skills and the executor: the keys
`success`, `output`, `error`, `message` of the Python dicts (a missing key
is `none`). -/
structure PyResult where
  success : Bool
  output : Option String
  error : Option String
  message : Option String
deriving DecidableEq

/-- Behaviour of one `skill.execute(task)` call: return a dict, or raise. -/
inductive HandlerBehavior where
  | ret (r : PyResult)
  | exn (msg : String)
deriving DecidableEq

/-- The keys of `ExecutorAgent.skills` (code, test, ship). -/
def skillTypes : List String := ["code", "test", "ship"]

/-- `str(result.get("output", result.get("message", "")))` (executor.py
line 57), used as the `output` column of the logged execution. -/
def loggedOutput (r : PyResult) : String :=
  r.output.getD (r.message.getD "")

/-- `ExecutorAgent.execute_task` over a handler oracle.  Returns the new
store state and the result dict.  The translation follows the source
line by line: task lookup, completed short-circuit, `in_progress`
transition, handler resolution, the `try` block (handler call, execution
logging, final status update) and the `except` handler.  Store operations
never fail in this model (see `execute_task_fallible` for the fallible
variant). -/
def execute_task (handlers : String → Task → HandlerBehavior) (s : DBState)
    (task_id : Nat) : DBState × PyResult :=
  match (get_tasks s none none).find? (fun t => t.id == task_id) with
  | none =>
      (s, { success := false, output := none,
            error := some ("Task " ++ toString task_id ++ " not found"),
            message := none })
  | some task =>
    if task.status = "completed" then
      (s, { success := true, output := none, error := none,
            message := some "Task already completed" })
    else
      let s1 := update_task s task_id (some "in_progress") none
      if task.task_type ∈ skillTypes then
        match handlers task.task_type task with
        | .exn msg =>
            (update_task s1 task_id (some "failed") (some msg),
             { success := false, output := none, error := some msg, message := none })
        | .ret r =>
            let s2 := (log_execution s1 task_id task.task_type task.description
                        (loggedOutput r) r.success).1
            if r.success then
              (update_task s2 task_id (some "completed") (some (r.output.getD "")), r)
            else
              (update_task s2 task_id (some "failed") (some (r.error.getD "Failed")), r)
      else
        (update_task s1 task_id (some "failed") (some "Unknown task type"),
         { success := false, output := none,
           error := some ("Unknown task type: " ++ task.task_type),
           message := none })

/-- One entry of the `results` list of `execute_all`: task id, task title,
and the merged result dict. -/
structure RunEntry where
  task_id : Nat
  title : String
  result : PyResult
deriving DecidableEq

/-- The summary dict returned by `ExecutorAgent.execute_all`:
`success = all(...)`, `tasks_executed = len(results)`. -/
structure RunSummary where
  success : Bool
  tasks_executed : Nat
  results : List RunEntry
deriving DecidableEq

/-- The final `return` of `execute_all` from the accumulated results. -/
def mkRunSummary (results : List RunEntry) : RunSummary :=
  { success := results.all (fun r => r.result.success),
    tasks_executed := results.length,
    results := results }

/-- The `while True` loop of `ExecutorAgent.execute_all`, with explicit
fuel: `none` means the fuel was exhausted before the loop exited.  Each
round re-resolves the next pending task; on `stop_on_error` the loop
breaks after the first unsuccessful result. -/
def executeAllFuel (handlers : String → Task → HandlerBehavior) (stop_on_error : Bool) :
    Nat → DBState → Option (DBState × List RunEntry)
  | 0, s =>
      match get_next_task s with
      | none => some (s, [])
      | some _ => none
  | fuel + 1, s =>
      match get_next_task s with
      | none => some (s, [])
      | some task =>
        let out := execute_task handlers s task.id
        let entry : RunEntry := { task_id := task.id, title := task.title, result := out.2 }
        if !out.2.success && stop_on_error then
          some (out.1, [entry])
        else
          match executeAllFuel handlers stop_on_error fuel out.1 with
          | none => none
          | some (s', rest) => some (s', entry :: rest)

/-- Number of pending tasks: the termination measure of the loop. -/
def pendingCount (s : DBState) : Nat :=
  (s.tasks.filter (fun t => t.status == "pending")).length

/-- `ExecutorAgent.execute_all`: the loop run with fuel `pendingCount s`
(shown sufficient in the termination theorem below), then the summary. -/
def execute_all (handlers : String → Task → HandlerBehavior) (stop_on_error : Bool)
    (s : DBState) : Option (DBState × RunSummary) :=
  (executeAllFuel handlers stop_on_error (pendingCount s) s).map
    (fun p => (p.1, mkRunSummary p.2))

/-! ## Code skill (`agent/skills/coder.py`) -/

/-- The dict returned by `claude_bridge.run_claude`: on success the
`output` key is always present (parsed JSON or raw stdout, modelled as
text, possibly empty); on failure the `error` key. -/
structure BridgeResult where
  success : Bool
  output : Option String
  error : Option String
deriving DecidableEq

/-- `CoderSkill.execute` over an assistant oracle: mirrors the
collaborator's success flag; on success the reported output (default
`""`), on failure the reported error (default `"Unknown error"`). -/
def coder_execute (assistant : Task → BridgeResult) (task : Task) : PyResult :=
  let r := assistant task
  if r.success then
    { success := true, output := some (r.output.getD ""), error := none,
      message := some ("Completed: " ++ task.title) }
  else
    { success := false, output := none,
      error := some (r.error.getD "Unknown error"),
      message := some ("Failed: " ++ task.title) }

/-! ## Executor with a fallible store

`execute_task` again, but each store write inside it may raise (SQLite can
fail).  The call sites are named; an oracle says which of them raise and
with what message.  `Except.error` is an exception propagating out of
`execute_task` to its caller; `Except.ok` is a normal return.  The `try`
block of the source spans the handler call, `log_execution` and the final
`update_task`; the `except Exception` clause catches anything raised
there, while the three `update_task` calls outside it are unprotected. -/

/-- The store-write call sites inside `ExecutorAgent.execute_task`. -/
inductive StoreSite where
  | markInProgress
  | unknownTypeUpdate
  | logExec
  | successUpdate
  | failureUpdate
  | exceptUpdate
deriving DecidableEq

/-- `ExecutorAgent.execute_task` where store writes may raise, per the
`store` oracle (`some msg` = this call raises `msg`, `none` = it
succeeds and has its modelled effect). -/
def execute_task_fallible (handlers : String → Task → HandlerBehavior)
    (store : StoreSite → Option String) (s : DBState) (task_id : Nat) :
    Except String (DBState × PyResult) :=
  match (get_tasks s none none).find? (fun t => t.id == task_id) with
  | none =>
      .ok (s, { success := false, output := none,
                error := some ("Task " ++ toString task_id ++ " not found"),
                message := none })
  | some task =>
    if task.status = "completed" then
      .ok (s, { success := true, output := none, error := none,
                message := some "Task already completed" })
    else
      match store .markInProgress with
      | some e => .error e
      | none =>
        let s1 := update_task s task_id (some "in_progress") none
        if task.task_type ∈ skillTypes then
          let tryBlock : Except (String × DBState) (DBState × PyResult) :=
            match handlers task.task_type task with
            | .exn msg => .error (msg, s1)
            | .ret r =>
              match store .logExec with
              | some e => .error (e, s1)
              | none =>
                let s2 := (log_execution s1 task_id task.task_type task.description
                            (loggedOutput r) r.success).1
                if r.success then
                  match store .successUpdate with
                  | some e => .error (e, s2)
                  | none =>
                      .ok (update_task s2 task_id (some "completed")
                            (some (r.output.getD "")), r)
                else
                  match store .failureUpdate with
                  | some e => .error (e, s2)
                  | none =>
                      .ok (update_task s2 task_id (some "failed")
                            (some (r.error.getD "Failed")), r)
          match tryBlock with
          | .ok out => .ok out
          | .error em =>
            match store .exceptUpdate with
            | some e => .error e
            | none =>
                .ok (update_task em.2 task_id (some "failed") (some em.1),
                     { success := false, output := none, error := some em.1,
                       message := none })
        else
          match store .unknownTypeUpdate with
          | some e => .error e
          | none =>
              .ok (update_task s1 task_id (some "failed") (some "Unknown task type"),
                   { success := false, output := none,
                     error := some ("Unknown task type: " ++ task.task_type),
                     message := none })

/-! ## Planner (`agent/subagents/planner.py`)

The regular expressions are applied with `re.MULTILINE`, so they match
line by line; the translation works on the `\n`-split lines.  Backtracking
of `\s*(.+)$` / `\s+(.+)$` after a greedy whitespace run is reproduced
exactly (when everything after the mandatory part is whitespace, the
capture is the final whitespace character). -/

/-- Python's `\s` character class. -/
def isPySpace (c : Char) : Bool :=
  c = ' ' || c = '\t' || c = '\n' || c = '\x0d' || c = '\x0b' || c = '\x0c'

/-- Python `str.strip()`: drop `\s` characters from both ends. -/
def pyStrip (s : String) : String :=
  let l := s.toList.dropWhile isPySpace
  String.mk ((l.reverse.dropWhile isPySpace).reverse)

/-- Python `str.lower()` (character-wise ASCII case folding). -/
def pyLower (s : String) : String :=
  String.mk (s.toList.map Char.toLower)

/-- Splitting text into its `\n`-separated lines (the line decomposition
`re.MULTILINE` matches against). -/
def splitLinesAux : List Char → List (List Char)
  | [] => [[]]
  | c :: cs =>
    match splitLinesAux cs with
    | l :: ls => if c = '\n' then [] :: l :: ls else (c :: l) :: ls
    | [] => [[c]]

/-- The lines of a text, as in Python `content.split("\n")`. -/
def pyLines (s : String) : List String :=
  (splitLinesAux s.toList).map String.mk

/-- Python `needle in haystack` on strings (substring test). -/
def pyContains (haystack needle : String) : Bool :=
  decide (needle.toList <:+: haystack.toList)

/-- The capture of `\s*(.+)$` at the current position: skip the greedy
whitespace run; if nothing remains for `.+`, backtracking hands the last
whitespace character to it; an empty remainder fails the match. -/
def captureAfterSpaces (t : List Char) : Option (List Char) :=
  if t.isEmpty then none
  else
    let rest := t.dropWhile isPySpace
    if rest.isEmpty then t.getLast?.map (fun c => [c]) else some rest

/-- The capture of `\s+(.+)$`: one mandatory whitespace character, then
as `captureAfterSpaces`. -/
def captureAfterSpaces1 (t : List Char) : Option (List Char) :=
  match t with
  | c :: rest => if isPySpace c then captureAfterSpaces rest else none
  | [] => none

/-- One line against `^[-*]\s*\[[ x]\]\s*(.+)$` (checkbox task items). -/
def checkboxCapture (line : String) : Option String :=
  match line.toList with
  | c :: rest =>
    if c = '-' || c = '*' then
      match rest.dropWhile isPySpace with
      | '[' :: m :: ']' :: rest2 =>
        if m = ' ' || m = 'x' then (captureAfterSpaces rest2).map String.mk
        else none
      | _ => none
    else none
  | [] => none

/-- One line against `^\d+\.\s+(.+)$` (numbered list items). -/
def numberedCapture (line : String) : Option String :=
  let l := line.toList
  let digits := l.takeWhile Char.isDigit
  if digits.isEmpty then none
  else
    match l.dropWhile Char.isDigit with
    | '.' :: rest => (captureAfterSpaces1 rest).map String.mk
    | _ => none

/-- One line against `^#\s+(.+)$` (the h1 title). -/
def titleCapture (line : String) : Option String :=
  match line.toList with
  | '#' :: rest => (captureAfterSpaces1 rest).map String.mk
  | _ => none

/-- A `{"title": ..., "type": ...}` dict produced by task extraction. -/
structure TaskSpec where
  title : String
  ttype : String
deriving DecidableEq

/-- `PlannerAgent._classify_task`: lower the text, then first matching
keyword family wins — test keywords, then ship keywords, else `code`;
the stored title is the stripped text. -/
def classify_task (text : String) : TaskSpec :=
  let text_lower := pyLower text
  let ttype :=
    if ["test", "spec", "verify"].any (fun kw => pyContains text_lower kw) then "test"
    else if ["commit", "push", "ship", "deploy", "release"].any
              (fun kw => pyContains text_lower kw) then "ship"
    else "code"
  { title := pyStrip text, ttype := ttype }

/-- `PlannerAgent._extract_tasks`: the cascade of strategies, first
non-empty wins.  Checkbox items and numbered items are translated from
the source regexes; the remaining two strategies (bullets under a
"Tasks"/"Steps"/"TODO"/"Plan" section heading, and the assistant-based
extraction, which calls the external `run_claude` collaborator) are the
`fallback` parameter — no claim below exercises them. -/
def extract_tasks (fallback : String → List TaskSpec) (content : String) : List TaskSpec :=
  let lines := pyLines content
  let checkbox := lines.filterMap (fun l => (checkboxCapture l).map classify_task)
  if !checkbox.isEmpty then checkbox
  else
    let numbered := lines.filterMap (fun l => (numberedCapture l).map classify_task)
    if !numbered.isEmpty then numbered
    else fallback content

/-- `re.search(r'^#\s+(.+)$', content, re.MULTILINE)`: the first line
with an h1 match, defaulting to "Untitled Plan". -/
def extract_title (content : String) : String :=
  ((pyLines content).findSome? titleCapture).getD "Untitled Plan"

/-- The task-persisting loop of `PlannerAgent.parse_plan` (lines 40-50):
`i` is the running `enumerate` index, `n` the total count; each round
creates a task with priority `n - i` and empty description. -/
def persistTasks (plan_id : Nat) (n : Nat) : Nat → DBState → List TaskSpec →
    DBState × List Nat
  | _, s, [] => (s, [])
  | i, s, spec :: rest =>
    let c := create_task s plan_id spec.title "" spec.ttype ((n : Int) - (i : Int)) none
    let out := persistTasks plan_id n (i + 1) c.1 rest
    (out.1, c.2 :: out.2)

/-- The dict returned by `parse_plan`. -/
structure ParseResult where
  success : Bool
  plan_id : Nat
  title : String
  task_count : Nat
  task_ids : List Nat
deriving DecidableEq

/-- `PlannerAgent.parse_plan`: extract the title, create the plan row,
extract the tasks, persist them with descending priorities. -/
def parse_plan (fallback : String → List TaskSpec) (s : DBState) (content : String)
    (source : Option String) : DBState × ParseResult :=
  let title := extract_title content
  let c := create_plan s title content source
  let specs := extract_tasks fallback content
  let p := persistTasks c.2 specs.length 0 c.1 specs
  (p.1, { success := true, plan_id := c.2, title := title,
          task_count := p.2.length, task_ids := p.2 })

/-! ## Characterisation of `update_task` -/

/-- The effect of one `update_task` call on one task row. -/
def updTaskFn (tid : Nat) (st res : Option String) (clk : Nat) (t : Task) : Task :=
  if t.id = tid then
    let t1 := if truthy st then { t with status := st.getD "" } else t
    let t2 := if truthy st && (st.getD "" == "completed") then
                { t1 with completed_at := some clk } else t1
    if truthy res then { t2 with result := some (res.getD "") } else t2
  else t

theorem map_eq_self_of (l : List Task) (f : Task → Task) (h : ∀ t ∈ l, f t = t) :
    l.map f = l :=
  (List.map_congr_left h).trans (List.map_id l)

theorem update_task_tasks (s : DBState) (tid : Nat) (st res : Option String) :
    (update_task s tid st res).tasks = s.tasks.map (updTaskFn tid st res s.clock) := by
  unfold update_task
  by_cases hst : truthy st = true <;> by_cases hres : truthy res = true <;>
    by_cases hc : st.getD "" = "completed" <;>
    simp only [hst, hres, hc, if_true, if_false, Bool.not_eq_true, if_pos, if_neg,
      List.map_map] <;>
  first
  | (apply List.map_congr_left
     intro t ht
     by_cases h : t.id = tid <;>
       simp_all [updTaskFn, setStatus, setCompletedAt, setResult, Function.comp])
  | (symm
     apply map_eq_self_of
     intro t ht
     by_cases h : t.id = tid <;> simp_all [updTaskFn])

theorem updTaskFn_id (tid : Nat) (st res : Option String) (clk : Nat) (t : Task) :
    (updTaskFn tid st res clk t).id = t.id := by
  simp only [updTaskFn]
  by_cases h : t.id = tid <;> (repeat' split) <;> simp [h]

theorem updTaskFn_of_ne (tid : Nat) (st res : Option String) (clk : Nat) (t : Task)
    (h : t.id ≠ tid) : updTaskFn tid st res clk t = t := by
  simp [updTaskFn, h]

theorem updTaskFn_status (tid : Nat) (st res : Option String) (clk : Nat) (t : Task) :
    (updTaskFn tid st res clk t).status =
      if t.id = tid ∧ truthy st = true then st.getD "" else t.status := by
  simp only [updTaskFn]
  by_cases h : t.id = tid
  · by_cases hst : truthy st = true <;> (repeat' split) <;> simp_all
  · simp [h]

theorem updTaskFn_result (tid : Nat) (st res : Option String) (clk : Nat) (t : Task) :
    (updTaskFn tid st res clk t).result =
      if t.id = tid ∧ truthy res = true then some (res.getD "") else t.result := by
  simp only [updTaskFn]
  by_cases h : t.id = tid
  · by_cases hres : truthy res = true <;> (repeat' split) <;> simp_all
  · simp [h]

theorem updTaskFn_completed_at (tid : Nat) (st res : Option String) (clk : Nat) (t : Task) :
    (updTaskFn tid st res clk t).completed_at =
      if t.id = tid ∧ truthy st = true ∧ st.getD "" = "completed" then some clk
      else t.completed_at := by
  simp only [updTaskFn]
  by_cases h : t.id = tid
  · by_cases hst : truthy st = true
    · by_cases hc : st.getD "" = "completed" <;> (repeat' split) <;> simp_all
    · (repeat' split) <;> simp_all
  · simp [h]

/-- The columns `update_task` never touches. -/
theorem updTaskFn_frame (tid : Nat) (st res : Option String) (clk : Nat) (t : Task) :
    (updTaskFn tid st res clk t).plan_id = t.plan_id ∧
    (updTaskFn tid st res clk t).title = t.title ∧
    (updTaskFn tid st res clk t).description = t.description ∧
    (updTaskFn tid st res clk t).task_type = t.task_type ∧
    (updTaskFn tid st res clk t).priority = t.priority ∧
    (updTaskFn tid st res clk t).parent_task_id = t.parent_task_id ∧
    (updTaskFn tid st res clk t).created_at = t.created_at := by
  simp only [updTaskFn]
  by_cases h : t.id = tid <;> (repeat' split) <;> simp_all

/-- `update_task` touches no table other than `tasks`. -/
theorem update_task_frame (s : DBState) (tid : Nat) (st res : Option String) :
    (update_task s tid st res).projects = s.projects ∧
    (update_task s tid st res).knowledge = s.knowledge ∧
    (update_task s tid st res).plans = s.plans ∧
    (update_task s tid st res).executions = s.executions ∧
    (update_task s tid st res).nextPlanId = s.nextPlanId ∧
    (update_task s tid st res).nextTaskId = s.nextTaskId ∧
    (update_task s tid st res).nextExecId = s.nextExecId := by
  unfold update_task
  (repeat' split) <;> simp

/-! ## Task selection lemmas -/

theorem get_tasks_all (s : DBState) :
    get_tasks s none none = List.insertionSort taskLE s.tasks := by
  unfold get_tasks
  congr 1
  apply List.filter_eq_self.mpr
  intro a _
  simp [matchesFilters, truthyNat, truthy]

theorem get_tasks_pending (s : DBState) :
    get_tasks s none (some "pending") =
      List.insertionSort taskLE (s.tasks.filter (fun t => t.status == "pending")) :=
  rfl

theorem pendingCount_eq (s : DBState) :
    pendingCount s = s.tasks.countP (fun t => t.status == "pending") :=
  (List.countP_eq_length_filter _ _).symm

theorem get_next_task_eq_none (s : DBState) (h : pendingCount s = 0) :
    get_next_task s = none := by
  unfold get_next_task
  rw [get_tasks_pending]
  have : s.tasks.filter (fun t => t.status == "pending") = [] :=
    List.length_eq_zero.mp h
  rw [this]
  rfl

theorem get_next_task_spec (s : DBState) (t : Task) (h : get_next_task s = some t) :
    t ∈ s.tasks ∧ t.status = "pending" := by
  unfold get_next_task at h
  rw [get_tasks_pending] at h
  have hmem : t ∈ List.insertionSort taskLE (s.tasks.filter (fun x => x.status == "pending")) :=
    List.mem_of_mem_head? h
  rw [List.mem_insertionSort] at hmem
  have := List.mem_filter.mp hmem
  exact ⟨this.1, by simpa using this.2⟩

theorem find?_get_tasks_all (s : DBState) (t : Task)
    (hnd : (s.tasks.map Task.id).Nodup) (hmem : t ∈ s.tasks) :
    (get_tasks s none none).find? (fun x => x.id == t.id) = some t := by
  rw [get_tasks_all]
  have hperm : List.Perm (List.insertionSort taskLE s.tasks) s.tasks :=
    List.perm_insertionSort taskLE s.tasks
  have hmem' : t ∈ List.insertionSort taskLE s.tasks := hperm.mem_iff.mpr hmem
  have hnd' : ((List.insertionSort taskLE s.tasks).map Task.id).Nodup :=
    ((hperm.map Task.id).nodup_iff).mpr hnd
  have hsome : ((List.insertionSort taskLE s.tasks).find? (fun x => x.id == t.id)).isSome := by
    rw [List.find?_isSome]
    exact ⟨t, hmem', by simp⟩
  obtain ⟨y, hy⟩ := Option.isSome_iff_exists.mp hsome
  have hyid : y.id = t.id := by simpa using List.find?_some hy
  have hymem := List.mem_of_find?_eq_some hy
  have : y = t := List.inj_on_of_nodup_map hnd' hymem hmem' hyid
  rw [hy, this]

/-! ## `execute_task` branch equations -/

theorem execute_task_of_ret_success (handlers : String → Task → HandlerBehavior)
    (s : DBState) (tid : Nat) (task : Task) (r : PyResult)
    (hfind : (get_tasks s none none).find? (fun x => x.id == tid) = some task)
    (hst : task.status ≠ "completed")
    (hty : task.task_type ∈ skillTypes)
    (hret : handlers task.task_type task = .ret r)
    (hs : r.success = true) :
    execute_task handlers s tid =
      (update_task ((log_execution (update_task s tid (some "in_progress") none) tid
          task.task_type task.description (loggedOutput r) r.success).1) tid
          (some "completed") (some (r.output.getD "")), r) := by
  unfold execute_task
  rw [hfind]
  simp only [if_neg hst, if_pos hty, hret, if_pos hs]

theorem execute_task_of_ret_failure (handlers : String → Task → HandlerBehavior)
    (s : DBState) (tid : Nat) (task : Task) (r : PyResult)
    (hfind : (get_tasks s none none).find? (fun x => x.id == tid) = some task)
    (hst : task.status ≠ "completed")
    (hty : task.task_type ∈ skillTypes)
    (hret : handlers task.task_type task = .ret r)
    (hs : ¬r.success = true) :
    execute_task handlers s tid =
      (update_task ((log_execution (update_task s tid (some "in_progress") none) tid
          task.task_type task.description (loggedOutput r) r.success).1) tid
          (some "failed") (some (r.error.getD "Failed")), r) := by
  unfold execute_task
  rw [hfind]
  simp only [if_neg hst, if_pos hty, hret, if_neg hs]

theorem execute_task_of_exn (handlers : String → Task → HandlerBehavior) (s : DBState)
    (tid : Nat) (task : Task) (msg : String)
    (hfind : (get_tasks s none none).find? (fun x => x.id == tid) = some task)
    (hst : task.status ≠ "completed")
    (hty : task.task_type ∈ skillTypes)
    (hexn : handlers task.task_type task = .exn msg) :
    execute_task handlers s tid =
      (update_task (update_task s tid (some "in_progress") none) tid
         (some "failed") (some msg),
       { success := false, output := none, error := some msg, message := none }) := by
  unfold execute_task
  rw [hfind]
  simp only [if_neg hst, if_pos hty, hexn]

theorem execute_task_of_unknown (handlers : String → Task → HandlerBehavior) (s : DBState)
    (tid : Nat) (task : Task)
    (hfind : (get_tasks s none none).find? (fun x => x.id == tid) = some task)
    (hst : task.status ≠ "completed")
    (hty : task.task_type ∉ skillTypes) :
    execute_task handlers s tid =
      (update_task (update_task s tid (some "in_progress") none) tid
         (some "failed") (some "Unknown task type"),
       { success := false, output := none,
         error := some ("Unknown task type: " ++ task.task_type),
         message := none }) := by
  unfold execute_task
  rw [hfind]
  simp only [if_neg hst, if_neg hty]

/-! ## Termination of the dispatch loop -/

theorem countP_map_le (f : Task → Task) (p : Task → Bool) :
    ∀ l : List Task, (∀ x ∈ l, p (f x) = true → p x = true) →
      (l.map f).countP p ≤ l.countP p := by
  intro l
  induction l with
  | nil => intro _; simp
  | cons a l ih =>
    intro h
    have hl := ih (fun x hx => h x (List.mem_cons_of_mem a hx))
    have ha := h a (List.mem_cons_self a l)
    simp only [List.map_cons, List.countP_cons]
    by_cases hfa : p (f a) = true
    · rw [if_pos hfa, if_pos (ha hfa)]
      omega
    · rw [if_neg hfa]
      by_cases hpa : p a = true
      · rw [if_pos hpa]; omega
      · rw [if_neg hpa]; omega

theorem countP_map_lt (f : Task → Task) (p : Task → Bool) :
    ∀ l : List Task, (∀ x ∈ l, p (f x) = true → p x = true) →
      ∀ t, t ∈ l → p t = true → p (f t) = false →
      (l.map f).countP p < l.countP p := by
  intro l
  induction l with
  | nil => intro _ t ht; cases ht
  | cons a l ih =>
    intro hmono t ht hpt hft
    simp only [List.map_cons, List.countP_cons]
    rcases List.mem_cons.mp ht with rfl | hmem
    · have hfneg : ¬p (f t) = true := by rw [hft]; exact Bool.false_ne_true
      rw [if_neg hfneg, if_pos hpt]
      have hle := countP_map_le f p l (fun x hx => hmono x (List.mem_cons_of_mem t hx))
      omega
    · have hlt := ih (fun x hx => hmono x (List.mem_cons_of_mem a hx)) t hmem hpt hft
      have ha := hmono a (List.mem_cons_self a l)
      by_cases hfa : p (f a) = true
      · rw [if_pos hfa, if_pos (ha hfa)]
        omega
      · rw [if_neg hfa]
        by_cases hpa : p a = true
        · rw [if_pos hpa]; omega
        · rw [if_neg hpa]; omega

/-- Composite per-row effect of the two `update_task` calls every branch of
`execute_task` performs on a pending task: the id is preserved, other rows
are untouched, and the target row ends in the given terminal status. -/
theorem double_upd_props (tid : Nat) (stv : String) (res2 : Option String) (c1 c2 : Nat)
    (hstv : truthy (some stv) = true) :
    (∀ x, ((updTaskFn tid (some stv) res2 c2) ((updTaskFn tid (some "in_progress") none c1) x)).id = x.id) ∧
    (∀ x, x.id = tid →
      ((updTaskFn tid (some stv) res2 c2) ((updTaskFn tid (some "in_progress") none c1) x)).status = stv) ∧
    (∀ x, x.id ≠ tid →
      (updTaskFn tid (some stv) res2 c2) ((updTaskFn tid (some "in_progress") none c1) x) = x) := by
  refine ⟨fun x => ?_, fun x hx => ?_, fun x hx => ?_⟩
  · rw [updTaskFn_id, updTaskFn_id]
  · rw [updTaskFn_status]
    have hid : ((updTaskFn tid (some "in_progress") none c1) x).id = tid := by
      rw [updTaskFn_id]; exact hx
    rw [if_pos ⟨hid, hstv⟩]
    rfl
  · rw [updTaskFn_of_ne tid (some "in_progress") none c1 x hx]
    rw [updTaskFn_of_ne tid (some stv) res2 c2 x hx]

/-- Executing an existing pending task (unique ids) rewrites the task table
by a per-row function that preserves ids, fixes all other rows, and moves
the target row to `completed` or `failed`. -/
theorem execute_task_step (handlers : String → Task → HandlerBehavior) (s : DBState)
    (t : Task) (hnd : (s.tasks.map Task.id).Nodup) (hmem : t ∈ s.tasks)
    (hp : t.status = "pending") :
    ∃ F : Task → Task,
      ((execute_task handlers s t.id).1).tasks = s.tasks.map F ∧
      (∀ x, (F x).id = x.id) ∧
      (∀ x, x.id = t.id → ((F x).status = "completed" ∨ (F x).status = "failed")) ∧
      (∀ x, x.id ≠ t.id → F x = x) := by
  have hfind := find?_get_tasks_all s t hnd hmem
  have hst : t.status ≠ "completed" := by rw [hp]; decide
  by_cases hty : t.task_type ∈ skillTypes
  · cases hh : handlers t.task_type t with
    | ret r =>
      by_cases hs : r.success = true
      · rw [execute_task_of_ret_success handlers s t.id t r hfind hst hty hh hs]
        rw [update_task_tasks]
        have hlog : ((log_execution (update_task s t.id (some "in_progress") none) t.id
            t.task_type t.description (loggedOutput r) r.success).1).tasks =
            (update_task s t.id (some "in_progress") none).tasks := rfl
        rw [hlog, update_task_tasks, List.map_map]
        obtain ⟨h1, h2, h3⟩ := double_upd_props t.id "completed" (some (r.output.getD ""))
          s.clock ((log_execution (update_task s t.id (some "in_progress") none) t.id
            t.task_type t.description (loggedOutput r) r.success).1).clock rfl
        exact ⟨_, rfl, h1, fun x hx => Or.inl (h2 x hx), h3⟩
      · rw [execute_task_of_ret_failure handlers s t.id t r hfind hst hty hh hs]
        rw [update_task_tasks]
        have hlog : ((log_execution (update_task s t.id (some "in_progress") none) t.id
            t.task_type t.description (loggedOutput r) r.success).1).tasks =
            (update_task s t.id (some "in_progress") none).tasks := rfl
        rw [hlog, update_task_tasks, List.map_map]
        obtain ⟨h1, h2, h3⟩ := double_upd_props t.id "failed" (some (r.error.getD "Failed"))
          s.clock ((log_execution (update_task s t.id (some "in_progress") none) t.id
            t.task_type t.description (loggedOutput r) r.success).1).clock rfl
        exact ⟨_, rfl, h1, fun x hx => Or.inr (h2 x hx), h3⟩
    | exn msg =>
      rw [execute_task_of_exn handlers s t.id t msg hfind hst hty hh]
      rw [update_task_tasks, update_task_tasks, List.map_map]
      obtain ⟨h1, h2, h3⟩ := double_upd_props t.id "failed" (some msg)
        s.clock (update_task s t.id (some "in_progress") none).clock rfl
      exact ⟨_, rfl, h1, fun x hx => Or.inr (h2 x hx), h3⟩
  · rw [execute_task_of_unknown handlers s t.id t hfind hst hty]
    rw [update_task_tasks, update_task_tasks, List.map_map]
    obtain ⟨h1, h2, h3⟩ := double_upd_props t.id "failed" (some "Unknown task type")
      s.clock (update_task s t.id (some "in_progress") none).clock rfl
    exact ⟨_, rfl, h1, fun x hx => Or.inr (h2 x hx), h3⟩

theorem pendingCount_execute_task_lt (handlers : String → Task → HandlerBehavior)
    (s : DBState) (t : Task) (hnd : (s.tasks.map Task.id).Nodup)
    (hnext : get_next_task s = some t) :
    pendingCount ((execute_task handlers s t.id).1) < pendingCount s := by
  obtain ⟨hmem, hp⟩ := get_next_task_spec s t hnext
  obtain ⟨F, hF, hid, hstat, hne⟩ := execute_task_step handlers s t hnd hmem hp
  rw [pendingCount_eq, pendingCount_eq, hF]
  apply countP_map_lt F (fun x => x.status == "pending") s.tasks ?mono t hmem
  · simp [hp]
  · rcases hstat t rfl with h | h <;> simp [h]
  case mono =>
    intro x _ hx
    by_cases hxt : x.id = t.id
    · rcases hstat x hxt with h | h <;> simp [h] at hx
    · rw [hne x hxt] at hx
      exact hx

theorem execute_task_ids (handlers : String → Task → HandlerBehavior)
    (s : DBState) (t : Task) (hnd : (s.tasks.map Task.id).Nodup)
    (hnext : get_next_task s = some t) :
    ((execute_task handlers s t.id).1).tasks.map Task.id = s.tasks.map Task.id := by
  obtain ⟨hmem, hp⟩ := get_next_task_spec s t hnext
  obtain ⟨F, hF, hid, _, _⟩ := execute_task_step handlers s t hnd hmem hp
  rw [hF, List.map_map]
  exact List.map_congr_left (fun x _ => hid x)

theorem executeAllFuel_isSome (handlers : String → Task → HandlerBehavior) (stop : Bool) :
    ∀ (fuel : Nat) (s : DBState), (s.tasks.map Task.id).Nodup →
      pendingCount s ≤ fuel → (executeAllFuel handlers stop fuel s).isSome = true := by
  intro fuel
  induction fuel with
  | zero =>
    intro s _ hle
    have h0 : pendingCount s = 0 := Nat.le_zero.mp hle
    have hnone := get_next_task_eq_none s h0
    simp [executeAllFuel, hnone]
  | succ n ih =>
    intro s hnd hle
    cases hnext : get_next_task s with
    | none => simp [executeAllFuel, hnext]
    | some t =>
      have hlt := pendingCount_execute_task_lt handlers s t hnd hnext
      have hnd' : (((execute_task handlers s t.id).1).tasks.map Task.id).Nodup := by
        rw [execute_task_ids handlers s t hnd hnext]; exact hnd
      have hrec := ih ((execute_task handlers s t.id).1) hnd' (by omega)
      simp only [executeAllFuel, hnext]
      by_cases hb : (!(execute_task handlers s t.id).2.success && stop) = true
      · simp [hb]
      · simp only [Bool.not_eq_true] at hb
        obtain ⟨v, hv⟩ := Option.isSome_iff_exists.mp hrec
        simp [hb, hv]

/-! ## Planner lemmas -/

/-- The task rows created by the persisting loop of `parse_plan`, starting
at index `i`, next row id `nid` and clock `clk`. -/
def plannedRows (pid n : Nat) : Nat → Nat → Nat → List TaskSpec → List Task
  | _, _, _, [] => []
  | i, nid, clk, spec :: rest =>
    { id := nid, plan_id := pid, title := spec.title, description := "",
      task_type := spec.ttype, status := "pending",
      priority := (n : Int) - (i : Int),
      parent_task_id := none, result := none, created_at := clk,
      completed_at := none }
      :: plannedRows pid n (i + 1) (nid + 1) (clk + 1) rest

theorem persistTasks_tasks (pid n : Nat) :
    ∀ (specs : List TaskSpec) (i : Nat) (s : DBState),
      (persistTasks pid n i s specs).1.tasks =
        s.tasks ++ plannedRows pid n i s.nextTaskId s.clock specs := by
  intro specs
  induction specs with
  | nil => intro i s; simp [persistTasks, plannedRows]
  | cons spec rest ih =>
    intro i s
    simp only [persistTasks, plannedRows]
    rw [ih (i + 1)]
    simp [create_task]

theorem plannedRows_getElem? (pid n : Nat) :
    ∀ (specs : List TaskSpec) (i nid clk j : Nat),
      (plannedRows pid n i nid clk specs)[j]? =
        (specs[j]?).map (fun spec =>
          { id := nid + j, plan_id := pid, title := spec.title, description := "",
            task_type := spec.ttype, status := "pending",
            priority := (n : Int) - ((i + j : Nat) : Int),
            parent_task_id := none, result := none, created_at := clk + j,
            completed_at := none }) := by
  intro specs
  induction specs with
  | nil => intro i nid clk j; simp [plannedRows]
  | cons spec rest ih =>
    intro i nid clk j
    cases j with
    | zero => simp [plannedRows]
    | succ j =>
      simp only [plannedRows, List.getElem?_cons_succ]
      rw [ih (i + 1) (nid + 1) (clk + 1) j]
      have h1 : nid + 1 + j = nid + (j + 1) := by omega
      have h2 : ((i + 1 + j : Nat) : Int) = ((i + (j + 1) : Nat) : Int) := by
        push_cast; ring
      have h3 : clk + 1 + j = clk + (j + 1) := by omega
      rw [h1, h2, h3]

theorem plannedRows_mem (pid n : Nat) :
    ∀ (specs : List TaskSpec) (i nid clk : Nat) (t : Task),
      t ∈ plannedRows pid n i nid clk specs →
      t.status = "pending" ∧ t.priority ≤ (n : Int) - (i : Int) := by
  intro specs
  induction specs with
  | nil => intro i nid clk t ht; cases ht
  | cons spec rest ih =>
    intro i nid clk t ht
    rcases List.mem_cons.mp ht with rfl | hmem
    · exact ⟨rfl, le_refl _⟩
    · obtain ⟨h1, h2⟩ := ih (i + 1) (nid + 1) (clk + 1) t hmem
      refine ⟨h1, le_trans h2 ?_⟩
      have : ((i : Int) : Int) ≤ ((i + 1 : Nat) : Int) := by push_cast; omega
      push_cast
      omega

/-! ## Concrete states used by the claim theorems -/

/-- A freshly initialised store. -/
def emptyDB : DBState :=
  { projects := [], knowledge := [], plans := [], tasks := [], executions := [],
    nextPlanId := 1, nextTaskId := 1, nextExecId := 1, clock := 0 }

/-- A task row as `create_task` would produce it. -/
def sampleTask (i : Nat) (pri : Int) (st ty : String) : Task :=
  { id := i, plan_id := 1, title := "T" ++ toString i, description := "",
    task_type := ty, status := st, priority := pri, parent_task_id := none,
    result := none, created_at := 0, completed_at := none }

/-- Three pending code tasks T1 > T2 > T3 by priority. -/
def threeTaskDB : DBState :=
  { emptyDB with
      tasks := [sampleTask 1 3 "pending" "code", sampleTask 2 2 "pending" "code",
                sampleTask 3 1 "pending" "code"],
      nextTaskId := 4 }

/-- Handlers under which T1 succeeds and every other task fails. -/
def scenarioHandlers : String → Task → HandlerBehavior := fun _ t =>
  if t.id = 1 then
    .ret { success := true, output := some "ok", error := none, message := none }
  else
    .ret { success := false, output := none, error := some "boom", message := none }

/-- A store with a single pending code task. -/
def singlePendingDB : DBState :=
  { emptyDB with tasks := [sampleTask 1 1 "pending" "code"], nextTaskId := 2 }

/-- A store whose single pending task has a type matching no skill. -/
def unknownTypeDB : DBState :=
  { emptyDB with tasks := [sampleTask 1 1 "pending" "mystery"], nextTaskId := 2 }

/-- Handlers that raise on every task. -/
def raisingHandlers : String → Task → HandlerBehavior := fun _ _ => .exn "kaput"

/-- Handlers that return a successful result with output "out". -/
def okHandlers : String → Task → HandlerBehavior := fun _ _ =>
  .ret { success := true, output := some "out", error := none, message := none }

/-- The three-checkbox plan text of the specification example. -/
def checkboxContent : String :=
  "# Plan\n- [ ] Write unit tests for parser\n- [ ] Add retry logic to client\n- [ ] Commit and push changes"

/-! ## Claim theorems -/

/-- C8: `reset_tasks` empties the executions, tasks and plans tables and
leaves the projects and knowledge tables unchanged, for every store
state. -/
theorem reset_tasks_frame (s : DBState) :
    (reset_tasks s).executions = [] ∧ (reset_tasks s).tasks = [] ∧
    (reset_tasks s).plans = [] ∧ (reset_tasks s).projects = s.projects ∧
    (reset_tasks s).knowledge = s.knowledge :=
  ⟨rfl, rfl, rfl, rfl, rfl⟩

/-- C10: `update_task` with `status = None` leaves every task's status and
`completed_at` unchanged; with `result = None` or `result = ""` it leaves
every task's result unchanged; and no `update_task` call ever changes a
task's id, plan id, title, description, type, priority, parent or creation
time. -/
theorem update_task_truthiness_frame (s : DBState) (tid : Nat) (st res : Option String) :
    ((update_task s tid none res).tasks.map (fun t => (t.status, t.completed_at)) =
       s.tasks.map (fun t => (t.status, t.completed_at))) ∧
    ((update_task s tid st none).tasks.map (fun t => t.result) =
       s.tasks.map (fun t => t.result)) ∧
    ((update_task s tid st (some "")).tasks.map (fun t => t.result) =
       s.tasks.map (fun t => t.result)) ∧
    ((update_task s tid st res).tasks.map (fun t =>
        (t.id, t.plan_id, t.title, t.description, t.task_type, t.priority,
         t.parent_task_id, t.created_at)) =
       s.tasks.map (fun t =>
        (t.id, t.plan_id, t.title, t.description, t.task_type, t.priority,
         t.parent_task_id, t.created_at))) := by
  refine ⟨?_, ?_, ?_, ?_⟩ <;> rw [update_task_tasks, List.map_map] <;>
    apply List.map_congr_left <;> intro t _
  · have h1 := updTaskFn_status tid none res s.clock t
    have h2 := updTaskFn_completed_at tid none res s.clock t
    simp only [Function.comp_apply, h1, h2, truthy]
    simp
  · have h1 := updTaskFn_result tid st none s.clock t
    simp only [Function.comp_apply, h1, truthy]
    simp
  · have h1 := updTaskFn_result tid st (some "") s.clock t
    simp only [Function.comp_apply, h1, truthy]
    simp
  · obtain ⟨f1, f2, f3, f4, f5, f6, f7⟩ := updTaskFn_frame tid st res s.clock t
    simp only [Function.comp_apply, updTaskFn_id, f1, f2, f3, f4, f5, f6, f7]

/-- C3: the summary returned by `execute_all` has `success` equal to the
conjunction of the per-task success flags and `tasks_executed` equal to the
number of attempted tasks; concretely, with `stop_on_error = true` over
[T1 succeeds, T2 fails, T3 pending] the loop halts after T2, leaves T3
pending, and returns success = false, tasks_executed = 2. -/
theorem execute_all_stop_on_error_aggregate :
    (∀ results : List RunEntry,
      (mkRunSummary results).success = results.all (fun r => r.result.success) ∧
      (mkRunSummary results).tasks_executed = results.length) ∧
    (execute_all scenarioHandlers true threeTaskDB).map (fun p => p.2.success) =
      some false ∧
    (execute_all scenarioHandlers true threeTaskDB).map (fun p => p.2.tasks_executed) =
      some 2 ∧
    (execute_all scenarioHandlers true threeTaskDB).map
      (fun p => p.2.results.map (fun e => (e.task_id, e.result.success))) =
      some [(1, true), (2, false)] ∧
    (execute_all scenarioHandlers true threeTaskDB).map
      (fun p => p.1.tasks.map (fun t => (t.id, t.status))) =
      some [(1, "completed"), (2, "failed"), (3, "pending")] :=
  ⟨fun _ => ⟨rfl, rfl⟩, by decide, by decide, by decide, by decide⟩

/-- C9: `execute_all` terminates for every store state with well-formed
(pairwise distinct) task ids: each iteration strictly shrinks the set of
pending tasks, so the fuel `pendingCount s` always suffices and the loop
reaches an exit. -/
theorem execute_all_terminates (handlers : String → Task → HandlerBehavior)
    (stop : Bool) (s : DBState) (hnd : (s.tasks.map Task.id).Nodup) :
    (execute_all handlers stop s).isSome = true := by
  unfold execute_all
  rw [Option.isSome_map']
  exact executeAllFuel_isSome handlers stop (pendingCount s) s hnd (le_refl _)

/-- Witness for C9 at a concrete three-task store. -/
theorem execute_all_terminates_witness :
    (threeTaskDB.tasks.map Task.id).Nodup ∧
    (execute_all scenarioHandlers false threeTaskDB).isSome = true :=
  ⟨by decide, execute_all_terminates scenarioHandlers false threeTaskDB (by decide)⟩

/-- C7: task classification lowers the text and applies the first matching
keyword family: test keywords win over ship keywords, and with neither the
type is `code`; the stored title is the stripped text. -/
theorem classify_task_first_matching_rule (text : String) :
    (["test", "spec", "verify"].any
        (fun kw => pyContains (pyLower text) kw) = true →
      (classify_task text).ttype = "test") ∧
    (["test", "spec", "verify"].any
        (fun kw => pyContains (pyLower text) kw) = false →
     ["commit", "push", "ship", "deploy", "release"].any
        (fun kw => pyContains (pyLower text) kw) = true →
      (classify_task text).ttype = "ship") ∧
    (["test", "spec", "verify"].any
        (fun kw => pyContains (pyLower text) kw) = false →
     ["commit", "push", "ship", "deploy", "release"].any
        (fun kw => pyContains (pyLower text) kw) = false →
      (classify_task text).ttype = "code") ∧
    (classify_task text).title = pyStrip text := by
  unfold classify_task
  refine ⟨fun h1 => ?_, fun h1 h2 => ?_, fun h1 h2 => ?_, rfl⟩
  · simp [h1]
  · simp [h1, h2]
  · simp [h1, h2]

/-- Witness for C7 on the three specification examples. -/
theorem classify_task_first_matching_rule_witness :
    (["test", "spec", "verify"].any
        (fun kw => pyContains (pyLower "Write unit tests for parser") kw) = true ∧
      (classify_task "Write unit tests for parser").ttype = "test") ∧
    (["test", "spec", "verify"].any
        (fun kw => pyContains (pyLower "Commit and push changes") kw) = false ∧
     (classify_task "Commit and push changes").ttype = "ship") ∧
    (["test", "spec", "verify"].any
        (fun kw => pyContains (pyLower "Add retry logic to client") kw) = false ∧
     (classify_task "Add retry logic to client").ttype = "code") :=
  ⟨⟨by decide, (classify_task_first_matching_rule "Write unit tests for parser").1
      (by decide)⟩,
   ⟨by decide, (classify_task_first_matching_rule "Commit and push changes").2.1
      (by decide) (by decide)⟩,
   ⟨by decide, (classify_task_first_matching_rule "Add retry logic to client").2.2.1
      (by decide) (by decide)⟩⟩

/-! ## C1 and C2 -/

theorem truthy_some_iff (v : String) : truthy (some v) = true ↔ v ≠ "" := by
  unfold truthy
  constructor
  · intro h hv
    subst hv
    simp at h
  · intro hv
    have hl : v.toList ≠ [] := fun h => hv (String.ext h)
    simp only [Bool.not_eq_true', List.isEmpty_eq_false]
    exact hl

theorem update_task_executions (s : DBState) (tid : Nat) (st res : Option String) :
    (update_task s tid st res).executions = s.executions :=
  (update_task_frame s tid st res).2.2.2.1

theorem log_execution_executions_length (s : DBState) (tid : Nat)
    (a b c : String) (d : Bool) :
    ((log_execution s tid a b c d).1).executions.length = s.executions.length + 1 := by
  simp [log_execution]

/-- C1 (amended): an `execute_task` call on an existing, not-yet-completed
task appends exactly one Execution row when the resolved handler returns
normally (success or failure), and appends none when the handler raises or
the task's type matches no handler. -/
theorem executor_logs_execution_only_on_normal_return
    (handlers : String → Task → HandlerBehavior) (s : DBState) (tid : Nat) (task : Task)
    (hfind : (get_tasks s none none).find? (fun x => x.id == tid) = some task)
    (hst : task.status ≠ "completed") :
    ((execute_task handlers s tid).1).executions.length =
      s.executions.length +
        (if task.task_type ∈ skillTypes then
           match handlers task.task_type task with
           | .ret _ => 1
           | .exn _ => 0
         else 0) := by
  by_cases hty : task.task_type ∈ skillTypes
  · rw [if_pos hty]
    cases hh : handlers task.task_type task with
    | ret r =>
      by_cases hs : r.success = true
      · rw [execute_task_of_ret_success handlers s tid task r hfind hst hty hh hs]
        simp [update_task_executions, log_execution_executions_length]
      · rw [execute_task_of_ret_failure handlers s tid task r hfind hst hty hh hs]
        simp [update_task_executions, log_execution_executions_length]
    | exn msg =>
      rw [execute_task_of_exn handlers s tid task msg hfind hst hty hh]
      simp [update_task_executions]
  · rw [if_neg hty, execute_task_of_unknown handlers s tid task hfind hst hty]
    simp [update_task_executions]

/-- Witness for C1 (amended) on a concrete store and handler. -/
theorem executor_logs_execution_only_on_normal_return_witness :
    ((get_tasks singlePendingDB none none).find? (fun x => x.id == 1) =
       some (sampleTask 1 1 "pending" "code") ∧
     (sampleTask 1 1 "pending" "code").status ≠ "completed") ∧
    ((execute_task okHandlers singlePendingDB 1).1).executions.length =
      singlePendingDB.executions.length +
        (if (sampleTask 1 1 "pending" "code").task_type ∈ skillTypes then
           match okHandlers (sampleTask 1 1 "pending" "code").task_type
               (sampleTask 1 1 "pending" "code") with
           | .ret _ => 1
           | .exn _ => 0
         else 0) :=
  ⟨⟨by decide, by decide⟩,
   executor_logs_execution_only_on_normal_return okHandlers singlePendingDB 1
     (sampleTask 1 1 "pending" "code") (by decide) (by decide)⟩

/-- Counterexample to C1 as stated: a pending task exists, its handler
raises (respectively its type matches no handler), the attempt transitions
the task to `failed`, yet no Execution row is recorded. -/
theorem executor_no_execution_row_on_exception_counterexample :
    singlePendingDB.executions = [] ∧
    (((execute_task raisingHandlers singlePendingDB 1).1).executions = [] ∧
     ((execute_task raisingHandlers singlePendingDB 1).1).tasks.map
        (fun t => (t.status, t.result)) = [("failed", some "kaput")]) ∧
    (((execute_task raisingHandlers unknownTypeDB 1).1).executions = [] ∧
     ((execute_task raisingHandlers unknownTypeDB 1).1).tasks.map
        (fun t => t.status) = ["failed"]) := by
  decide

/-- A store holding the single task produced by `create_task`. -/
def freshTaskDB : DBState := (create_task emptyDB 1 "t" "" "code" 1 none).1

/-- The store after completing the fresh task and then demoting it back to
`pending` through `update_task`. -/
def completedThenDemotedDB : DBState :=
  update_task (update_task freshTaskDB 1 (some "completed") none) 1
    (some "pending") none

/-- C2 (amended): a truthy `update_task` status argument sets the status,
and sets `completed_at` exactly when the new status is `completed`;
`completed_at` is never cleared, so a previously set `completed_at`
survives any later status. -/
theorem update_task_completed_at_amended (s : DBState) (tid : Nat) (st : String)
    (res : Option String) (hst : st ≠ "") :
    (update_task s tid (some st) res).tasks.map
        (fun t => (t.status, t.completed_at.isSome)) =
      s.tasks.map (fun t =>
        (if t.id = tid then st else t.status,
         if t.id = tid ∧ st = "completed" then true else t.completed_at.isSome)) := by
  have htr : truthy (some st) = true := (truthy_some_iff st).mpr hst
  rw [update_task_tasks, List.map_map]
  apply List.map_congr_left
  intro t _
  have h1 := updTaskFn_status tid (some st) res s.clock t
  have h2 := updTaskFn_completed_at tid (some st) res s.clock t
  simp only [Function.comp_apply, h1, h2, htr, Option.getD_some]
  by_cases hid : t.id = tid <;> by_cases hc : st = "completed" <;>
    simp [hid, hc]

/-- Witness for C2 (amended) at the fresh one-task store. -/
theorem update_task_completed_at_amended_witness :
    "completed" ≠ "" ∧
    (update_task freshTaskDB 1 (some "completed") none).tasks.map
        (fun t => (t.status, t.completed_at.isSome)) =
      freshTaskDB.tasks.map (fun t =>
        (if t.id = 1 then "completed" else t.status,
         if t.id = 1 ∧ "completed" = "completed" then true else t.completed_at.isSome)) :=
  ⟨by decide,
   update_task_completed_at_amended freshTaskDB 1 "completed" none (by decide)⟩

/-- Counterexample to C2 as stated: after completing a task and then
updating its status to `pending`, the task is not `completed` but its
`completed_at` column is still set, violating the claimed iff. -/
theorem completed_at_persists_after_demotion_counterexample :
    ∃ t ∈ completedThenDemotedDB.tasks,
      t.status = "pending" ∧ t.completed_at.isSome = true := by
  decide

/-! ## C4, C5 and C6 -/

theorem log_execution_tasks (s : DBState) (tid : Nat) (a b c : String) (d : Bool) :
    ((log_execution s tid a b c d).1).tasks = s.tasks := rfl

theorem create_plan_tasks (s : DBState) (a b : String) (c : Option String) :
    ((create_plan s a b c).1).tasks = s.tasks := rfl

theorem truthy_some_empty : truthy (some "") = false := rfl

/-- Status and result of a row after the `in_progress` transition followed
by a terminal `update_task` with a truthy status and a result argument
whose truthiness depends on the text being non-empty. -/
theorem double_upd_result (tid : Nat) (stv v : String) (c1 c2 : Nat) (t : Task)
    (hstv : truthy (some stv) = true) :
    (((updTaskFn tid (some stv) (some v) c2)
        ((updTaskFn tid (some "in_progress") none c1) t)).status,
     ((updTaskFn tid (some stv) (some v) c2)
        ((updTaskFn tid (some "in_progress") none c1) t)).result) =
      (if t.id = tid then (stv, if v = "" then t.result else some v)
       else (t.status, t.result)) := by
  by_cases hid : t.id = tid
  · rw [if_pos hid]
    have hinner_id : ((updTaskFn tid (some "in_progress") none c1) t).id = tid := by
      rw [updTaskFn_id]; exact hid
    have hinner_res : ((updTaskFn tid (some "in_progress") none c1) t).result = t.result := by
      rw [updTaskFn_result]
      simp [truthy]
    rw [updTaskFn_status, updTaskFn_result, if_pos ⟨hinner_id, hstv⟩]
    by_cases hv : v = ""
    · subst hv
      rw [if_pos rfl]
      have : ¬(((updTaskFn tid (some "in_progress") none c1) t).id = tid ∧
          truthy (some "") = true) := by
        rw [truthy_some_empty]
        intro hcon
        cases hcon.2
      rw [if_neg this, hinner_res]
      rfl
    · have htrv : truthy (some v) = true := (truthy_some_iff v).mpr hv
      rw [if_neg hv, if_pos ⟨hinner_id, htrv⟩]
      rfl
  · rw [if_neg hid]
    rw [updTaskFn_of_ne tid (some "in_progress") none c1 t hid]
    rw [updTaskFn_of_ne tid (some stv) (some v) c2 t hid]

/-- C4 (amended): on a normal handler return the task reaches the matching
terminal status; the stored result equals the handler's output text (on
success) or error text with fallback "Failed" (on failure) whenever that
text is non-empty, and is left unchanged — possibly null — when the text is
empty. -/
theorem executor_result_field_amended
    (handlers : String → Task → HandlerBehavior) (s : DBState) (tid : Nat)
    (task : Task) (r : PyResult)
    (hfind : (get_tasks s none none).find? (fun x => x.id == tid) = some task)
    (hst : task.status ≠ "completed")
    (hty : task.task_type ∈ skillTypes)
    (hret : handlers task.task_type task = .ret r) :
    ((execute_task handlers s tid).1).tasks.map (fun t => (t.status, t.result)) =
      s.tasks.map (fun t =>
        if t.id = tid then
          (if r.success = true then "completed" else "failed",
           if r.success = true then
             (if r.output.getD "" = "" then t.result else some (r.output.getD ""))
           else
             (if r.error.getD "Failed" = "" then t.result
              else some (r.error.getD "Failed")))
        else (t.status, t.result)) := by
  by_cases hs : r.success = true
  · rw [execute_task_of_ret_success handlers s tid task r hfind hst hty hret hs]
    simp only [update_task_tasks, log_execution_tasks, List.map_map]
    apply List.map_congr_left
    intro t _
    simp only [Function.comp_apply]
    rw [double_upd_result tid "completed" (r.output.getD "") _ _ t rfl]
    simp only [hs, if_true]
  · rw [execute_task_of_ret_failure handlers s tid task r hfind hst hty hret hs]
    simp only [update_task_tasks, log_execution_tasks, List.map_map]
    apply List.map_congr_left
    intro t _
    simp only [Function.comp_apply]
    rw [double_upd_result tid "failed" (r.error.getD "Failed") _ _ t rfl]
    simp [hs]

/-- The successful result dict `okHandlers` returns. -/
def okResult : PyResult :=
  { success := true, output := some "out", error := none, message := none }

/-- Witness for C4 (amended) on a concrete store and handler. -/
theorem executor_result_field_amended_witness :
    ((get_tasks singlePendingDB none none).find? (fun x => x.id == 1) =
       some (sampleTask 1 1 "pending" "code") ∧
     (sampleTask 1 1 "pending" "code").status ≠ "completed" ∧
     (sampleTask 1 1 "pending" "code").task_type ∈ skillTypes ∧
     okHandlers (sampleTask 1 1 "pending" "code").task_type
       (sampleTask 1 1 "pending" "code") = .ret okResult) ∧
    ((execute_task okHandlers singlePendingDB 1).1).tasks.map
        (fun t => (t.status, t.result)) =
      singlePendingDB.tasks.map (fun t =>
        if t.id = 1 then
          (if okResult.success = true then "completed" else "failed",
           if okResult.success = true then
             (if okResult.output.getD "" = "" then t.result
              else some (okResult.output.getD ""))
           else
             (if okResult.error.getD "Failed" = "" then t.result
              else some (okResult.error.getD "Failed")))
        else (t.status, t.result)) :=
  ⟨⟨by decide, by decide, by decide, rfl⟩,
   executor_result_field_amended okHandlers singlePendingDB 1
     (sampleTask 1 1 "pending" "code") okResult (by decide) (by decide)
     (by decide) rfl⟩

/-- Handlers wrapping the Code skill over an assistant that reports success
with empty output (as `run_claude` does on empty stdout). -/
def emptyOutputHandlers : String → Task → HandlerBehavior := fun _ t =>
  .ret (coder_execute
    (fun _ => { success := true, output := some "", error := none }) t)

/-- Counterexample to C4 as stated: a successful Code-handler run whose
collaborator reports empty output leaves the completed task with a null
result — a terminal status with `result = none`. -/
theorem completed_task_with_null_result_counterexample :
    ∃ t ∈ ((execute_task emptyOutputHandlers singlePendingDB 1).1).tasks,
      t.status = "completed" ∧ t.result = none := by
  decide

/-- A store oracle that fails only when the executor logs the execution. -/
def logFailStore : StoreSite → Option String := fun site =>
  if site = .logExec then some "db boom" else none

/-- A store oracle that fails only on the `in_progress` transition. -/
def markFailStore : StoreSite → Option String := fun site =>
  if site = .markInProgress then some "db dead" else none

/-- A store oracle that fails only on the unknown-type `failed` update. -/
def unknownFailStore : StoreSite → Option String := fun site =>
  if site = .unknownTypeUpdate then some "db unk" else none

/-- A store oracle that fails only on the update inside the `except`
handler. -/
def exceptFailStore : StoreSite → Option String := fun site =>
  if site = .exceptUpdate then some "db exc" else none

/-- A store oracle that fails only on the `completed` update after a
successful handler return. -/
def successFailStore : StoreSite → Option String := fun site =>
  if site = .successUpdate then some "db suc" else none

/-- A store oracle that fails only on the `failed` update after an
unsuccessful handler return. -/
def failureFailStore : StoreSite → Option String := fun site =>
  if site = .failureUpdate then some "db fai" else none

/-- C5 (amended), covering all six store-write sites of `execute_task`:
store errors raised by the three `update_task` calls outside the `try`
block — the `in_progress` transition, the unknown-type `failed` update,
and the update inside the `except` handler — propagate out of
`execute_task` uncaught; store errors raised inside the `try` block —
by `log_execution` or by either terminal `update_task` (after a
successful or an unsuccessful handler return) — are caught by the generic
`except` clause and converted into a per-task failure result carrying the
store error text (when the `except` handler's own update succeeds, the
caught error is applied to the store state reached at the raise point). -/
theorem store_error_catching_boundary
    (handlers : String → Task → HandlerBehavior) (store : StoreSite → Option String)
    (s : DBState) (tid : Nat) (task : Task) (e : String)
    (hfind : (get_tasks s none none).find? (fun x => x.id == tid) = some task)
    (hst : task.status ≠ "completed") :
    (store .markInProgress = some e →
      execute_task_fallible handlers store s tid = .error e) ∧
    (task.task_type ∉ skillTypes →
      store .markInProgress = none →
      store .unknownTypeUpdate = some e →
      execute_task_fallible handlers store s tid = .error e) ∧
    (∀ msg : String, task.task_type ∈ skillTypes →
      store .markInProgress = none →
      handlers task.task_type task = .exn msg →
      store .exceptUpdate = some e →
      execute_task_fallible handlers store s tid = .error e) ∧
    (∀ r : PyResult, task.task_type ∈ skillTypes →
      store .markInProgress = none →
      handlers task.task_type task = .ret r →
      store .logExec = some e →
      store .exceptUpdate = none →
      execute_task_fallible handlers store s tid =
        .ok (update_task (update_task s tid (some "in_progress") none) tid
               (some "failed") (some e),
             { success := false, output := none, error := some e,
               message := none })) ∧
    (∀ r : PyResult, task.task_type ∈ skillTypes →
      store .markInProgress = none →
      handlers task.task_type task = .ret r →
      r.success = true →
      store .logExec = none →
      store .successUpdate = some e →
      store .exceptUpdate = none →
      execute_task_fallible handlers store s tid =
        .ok (update_task
               ((log_execution (update_task s tid (some "in_progress") none) tid
                  task.task_type task.description (loggedOutput r) r.success).1) tid
               (some "failed") (some e),
             { success := false, output := none, error := some e,
               message := none })) ∧
    (∀ r : PyResult, task.task_type ∈ skillTypes →
      store .markInProgress = none →
      handlers task.task_type task = .ret r →
      ¬r.success = true →
      store .logExec = none →
      store .failureUpdate = some e →
      store .exceptUpdate = none →
      execute_task_fallible handlers store s tid =
        .ok (update_task
               ((log_execution (update_task s tid (some "in_progress") none) tid
                  task.task_type task.description (loggedOutput r) r.success).1) tid
               (some "failed") (some e),
             { success := false, output := none, error := some e,
               message := none })) := by
  refine ⟨?_, ?_, ?_, ?_, ?_, ?_⟩
  · intro hmark
    unfold execute_task_fallible
    rw [hfind]
    simp only [if_neg hst, hmark]
  · intro hty hmark hunk
    unfold execute_task_fallible
    rw [hfind]
    simp only [if_neg hst, hmark, if_neg hty, hunk]
  · intro msg hty hmark hexn hexc
    unfold execute_task_fallible
    rw [hfind]
    simp only [if_neg hst, hmark, if_pos hty, hexn, hexc]
  · intro r hty hmark hret hlog hexc
    unfold execute_task_fallible
    rw [hfind]
    simp only [if_neg hst, hmark, if_pos hty, hret, hlog, hexc]
  · intro r hty hmark hret hs hlog hsucc hexc
    unfold execute_task_fallible
    rw [hfind]
    simp only [if_neg hst, hmark, if_pos hty, hret, hlog, if_pos hs, hsucc, hexc]
  · intro r hty hmark hret hs hlog hfail hexc
    unfold execute_task_fallible
    rw [hfind]
    simp only [if_neg hst, hmark, if_pos hty, hret, hlog, if_neg hs, hfail, hexc]

/-- The unsuccessful result dict `errHandlers` returns. -/
def errResult : PyResult :=
  { success := false, output := none, error := some "boom", message := none }

/-- Handlers that return an unsuccessful result. -/
def errHandlers : String → Task → HandlerBehavior := fun _ _ => .ret errResult

/-- Witness for C5 (amended): one concrete failing store per write site,
with the propagating sites yielding `.error` and the caught sites a
normal `.ok` failure result. -/
theorem store_error_catching_boundary_witness :
    (markFailStore .markInProgress = some "db dead" ∧
     execute_task_fallible okHandlers markFailStore singlePendingDB 1 =
       .error "db dead") ∧
    (unknownFailStore .unknownTypeUpdate = some "db unk" ∧
     execute_task_fallible okHandlers unknownFailStore unknownTypeDB 1 =
       .error "db unk") ∧
    (exceptFailStore .exceptUpdate = some "db exc" ∧
     execute_task_fallible raisingHandlers exceptFailStore singlePendingDB 1 =
       .error "db exc") ∧
    (logFailStore .logExec = some "db boom" ∧
     execute_task_fallible okHandlers logFailStore singlePendingDB 1 =
       .ok (update_task (update_task singlePendingDB 1 (some "in_progress") none) 1
              (some "failed") (some "db boom"),
            { success := false, output := none, error := some "db boom",
              message := none })) ∧
    (successFailStore .successUpdate = some "db suc" ∧
     execute_task_fallible okHandlers successFailStore singlePendingDB 1 =
       .ok (update_task
              ((log_execution (update_task singlePendingDB 1 (some "in_progress") none) 1
                 (sampleTask 1 1 "pending" "code").task_type
                 (sampleTask 1 1 "pending" "code").description
                 (loggedOutput okResult) okResult.success).1) 1
              (some "failed") (some "db suc"),
            { success := false, output := none, error := some "db suc",
              message := none })) ∧
    (failureFailStore .failureUpdate = some "db fai" ∧
     execute_task_fallible errHandlers failureFailStore singlePendingDB 1 =
       .ok (update_task
              ((log_execution (update_task singlePendingDB 1 (some "in_progress") none) 1
                 (sampleTask 1 1 "pending" "code").task_type
                 (sampleTask 1 1 "pending" "code").description
                 (loggedOutput errResult) errResult.success).1) 1
              (some "failed") (some "db fai"),
            { success := false, output := none, error := some "db fai",
              message := none })) :=
  ⟨⟨rfl,
    (store_error_catching_boundary okHandlers markFailStore singlePendingDB 1
      (sampleTask 1 1 "pending" "code") "db dead" (by decide) (by decide)).1 rfl⟩,
   ⟨rfl,
    (store_error_catching_boundary okHandlers unknownFailStore unknownTypeDB 1
      (sampleTask 1 1 "pending" "mystery") "db unk" (by decide) (by decide)).2.1
      (by decide) rfl rfl⟩,
   ⟨rfl,
    (store_error_catching_boundary raisingHandlers exceptFailStore singlePendingDB 1
      (sampleTask 1 1 "pending" "code") "db exc" (by decide) (by decide)).2.2.1 "kaput"
      (by decide) rfl rfl rfl⟩,
   ⟨rfl,
    (store_error_catching_boundary okHandlers logFailStore singlePendingDB 1
      (sampleTask 1 1 "pending" "code") "db boom" (by decide) (by decide)).2.2.2.1
      okResult (by decide) rfl rfl rfl rfl⟩,
   ⟨rfl,
    (store_error_catching_boundary okHandlers successFailStore singlePendingDB 1
      (sampleTask 1 1 "pending" "code") "db suc" (by decide) (by decide)).2.2.2.2.1
      okResult (by decide) rfl rfl (by decide) rfl rfl rfl⟩,
   ⟨rfl,
    (store_error_catching_boundary errHandlers failureFailStore singlePendingDB 1
      (sampleTask 1 1 "pending" "code") "db fai" (by decide) (by decide)).2.2.2.2.2
      errResult (by decide) rfl rfl (by decide) rfl rfl rfl⟩⟩

/-- Counterexample to C5 as stated: the store error raised while logging
the execution does not propagate — `execute_task` returns normally with a
per-task failure dict carrying the store error text. -/
theorem log_execution_error_caught_counterexample :
    (execute_task_fallible okHandlers logFailStore singlePendingDB 1).toOption.map
        (fun p => (p.2.success, p.2.error)) = some (false, some "db boom") := by
  decide

/-! ## C6 -/

/-- C6: for every plan text, the extracted tasks are persisted in
extraction order with priority `n - index` (`n` the number of extracted
tasks), and — in a store with no other tasks — the next pending task is the
first extracted one; concretely, the three-checkbox example creates three
typed tasks with priorities 3, 2, 1 and the first-listed one runs first. -/
theorem parse_plan_priority_order_and_next_task :
    (∀ (fallback : String → List TaskSpec) (s : DBState) (content : String)
       (source : Option String), s.tasks = [] →
      (∀ j : Nat,
        ((parse_plan fallback s content source).1.tasks.map
            (fun t => (t.title, t.task_type, t.priority)))[j]? =
          ((extract_tasks fallback content)[j]?).map
            (fun sp => (sp.title, sp.ttype,
              ((extract_tasks fallback content).length : Int) - (j : Int)))) ∧
      (∀ t0 : TaskSpec, (extract_tasks fallback content).head? = some t0 →
        (get_next_task (parse_plan fallback s content source).1).map
            (fun t => t.title) = some t0.title)) ∧
    ((extract_tasks (fun _ => []) checkboxContent).length = 3 ∧
     ((parse_plan (fun _ => []) emptyDB checkboxContent none).1.tasks.map
        (fun t => (t.title, t.task_type, t.priority))) =
       [("Write unit tests for parser", "test", (3 : Int)),
        ("Add retry logic to client", "code", 2),
        ("Commit and push changes", "ship", 1)] ∧
     (get_next_task (parse_plan (fun _ => []) emptyDB checkboxContent none).1).map
        (fun t => t.title) = some "Write unit tests for parser") := by
  constructor
  · intro fallback s content source hs
    constructor
    · intro j
      simp only [parse_plan]
      rw [persistTasks_tasks, create_plan_tasks, hs, List.nil_append]
      rw [List.getElem?_map, plannedRows_getElem?]
      cases hsp : (extract_tasks fallback content)[j]? with
      | none => simp
      | some sp => simp
    · intro t0 h0
      cases hspecs : extract_tasks fallback content with
      | nil => rw [hspecs] at h0; cases h0
      | cons sp rest =>
        rw [hspecs] at h0
        rw [List.head?_cons] at h0
        cases h0
        unfold get_next_task
        rw [get_tasks_pending]
        simp only [parse_plan]
        rw [hspecs, persistTasks_tasks, create_plan_tasks, hs, List.nil_append]
        rw [List.filter_eq_self.mpr ?allp]
        case allp =>
          intro t ht
          have hpend := (plannedRows_mem _ _ _ _ _ _ t ht).1
          simp [hpend]
        simp only [plannedRows]
        rw [List.insertionSort_cons taskLE ?hle]
        case hle =>
          intro b hb
          have hble := (plannedRows_mem _ _ _ _ _ _ b hb).2
          left
          push_cast at hble
          push_cast
          omega
        rw [List.head?_cons]
        rfl
  · refine ⟨by decide, by decide, by decide⟩

/-- Witness for C6 at the three-checkbox example store. -/
theorem parse_plan_priority_order_and_next_task_witness :
    emptyDB.tasks = [] ∧
    ((parse_plan (fun _ => []) emptyDB checkboxContent none).1.tasks.map
        (fun t => (t.title, t.task_type, t.priority)))[0]? =
      ((extract_tasks (fun _ => []) checkboxContent)[0]?).map
        (fun sp => (sp.title, sp.ttype,
          ((extract_tasks (fun _ => []) checkboxContent).length : Int) -
            ((0 : Nat) : Int))) :=
  ⟨rfl,
   (parse_plan_priority_order_and_next_task.1 (fun _ => []) emptyDB
     checkboxContent none rfl).1 0⟩

end Agent

